import Mathlib

/-!
# Verification of the jira-cli HTTP client and init command

Shallow embedding of `cmd/jira/init.go` (package `jira`): the `Config` /
`Client` data model, the `NewClient` constructor with its functional
options, the versioned `Get` / `GetV1` operations and the internal
`request` routine, and the `initialize` command handler.

External collaborators (the Go standard library's `net/http` transport,
URL validation inside `http.NewRequest`, the configuration generator and
`viper.ConfigFileUsed`) are modelled as explicit parameters: the network
is a function from the configured transport and the built request to an
outcome, and URL validity is an abstract boolean predicate.  Everything
the package itself computes (string trimming, URL concatenation, option
folding, header attachment, debug tracing, branch structure) is
translated directly from the source.
-/

/-- `time.Duration` is a 64-bit signed integer count of nanoseconds.
No arithmetic is performed on durations here, so plain `Int` suffices. -/
abbrev Duration := Int

/-- `context.Context` carries cancellation/deadline information opaque to
this layer; the client only threads it through to the transport, so it is
modelled as an opaque token. -/
abbrev Ctx := Nat

/-- RFC3339 is jira datetime format (constant `RFC3339` in the source). -/
def RFC3339 : String := "2006-01-02T15:04:05-0700"

/-- Constant `baseURLv3 = "/rest/api/3"`. -/
def baseURLv3 : String := "/rest/api/3"

/-- Constant `baseURLv1 = "/rest/agile/1.0"`. -/
def baseURLv1 : String := "/rest/agile/1.0"

/-- Go `error` values reachable from this package: the three sentinel
errors declared at package level, request-construction failures from
`http.NewRequest`, and network-level failures from the transport's
`RoundTrip`.  In Go these are distinct values of the `error` interface;
the constructors keep them distinguishable, as they are at runtime. -/
inductive GoError where
  | errNoResult
  | errEmptyResponse
  | errUnexpectedStatusCode
  | requestBuild (url : String)
  | transportFailure (msg : String)
deriving Repr, DecidableEq

/-- `var ErrNoResult = fmt.Errorf("jira: no result")`. -/
def ErrNoResult : GoError := .errNoResult

/-- `var ErrEmptyResponse = fmt.Errorf("jira: empty response from server")`. -/
def ErrEmptyResponse : GoError := .errEmptyResponse

/-- `var ErrUnexpectedStatusCode = fmt.Errorf("jira: unexpected status code")`. -/
def ErrUnexpectedStatusCode : GoError := .errUnexpectedStatusCode

/-- Go `strings.HasSuffix s suffix`: true iff `suffix` is a suffix of `s`. -/
def hasSuffix (s suffix : String) : Bool :=
  List.isSuffixOf suffix.data s.data

/-- Go `strings.TrimSuffix s suffix`: returns `s` without the provided
trailing `suffix` string; if `s` does not end in `suffix`, `s` is returned
unchanged.  At most one copy of the suffix is removed. -/
def trimSuffix (s suffix : String) : String :=
  if hasSuffix s suffix then
    String.mk (s.data.take (s.data.length - suffix.data.length))
  else s

/-- `Config` is a jira config. -/
structure Config where
  Server : String
  Login : String
  APIToken : String
  Debug : Bool
deriving Repr, DecidableEq

/-- The `&http.Transport{...}` value built by `NewClient`: it records that
the proxy is resolved from the process environment and the connection-dial
timeout handed to the `net.Dialer` at construction time.  Its round-trip
behaviour (the actual network) is external and passed separately. -/
structure HttpTransport where
  proxyFromEnvironment : Bool
  dialTimeout : Duration
deriving Repr, DecidableEq

/-- `Client` is a jira client.  `transport` is `none` while the field
still holds Go's zero value (`nil`) and `some t` once assigned. -/
structure Client where
  transport : Option HttpTransport
  server : String
  login : String
  token : String
  timeout : Duration
  debug : Bool
deriving Repr, DecidableEq

/-- `ClientFunc` decorates option for client.  Go mutates through a
pointer; the embedding passes the state explicitly. -/
abbrev ClientFunc := Client → Client

/-- `NewClient` instantiates new jira client.  Mirrors the source order:
the struct literal (with `timeout` at its zero value), then the transport
assignment reading `client.timeout`, then the option functions applied in
order. -/
def NewClient (c : Config) (opts : List ClientFunc) : Client :=
  let client : Client :=
    { transport := none
      server := trimSuffix c.Server "/"
      login := c.Login
      token := c.APIToken
      timeout := 0
      debug := c.Debug }
  let client : Client :=
    { client with
      transport := some { proxyFromEnvironment := true
                          dialTimeout := client.timeout } }
  opts.foldl (fun cl opt => opt cl) client

/-- `WithTimeout` is a functional opt to attach timeout to the client.
(The Go parameter is named `to`, a reserved word in Lean.) -/
def WithTimeout (d : Duration) : ClientFunc :=
  fun c => { c with timeout := d }

/-- An `http.Request` as far as this package observes it: method, URL,
the Basic-auth credentials set by `SetBasicAuth` (absent until set), and
the bound context. -/
structure Request where
  method : String
  url : String
  basicAuth : Option (String × String)
  ctx : Option Ctx
deriving Repr, DecidableEq

/-- `req.SetBasicAuth(user, pass)`. -/
def Request.setBasicAuth (r : Request) (user pass : String) : Request :=
  { r with basicAuth := some (user, pass) }

/-- `req.WithContext(ctx)`. -/
def Request.withCtx (r : Request) (ctx : Ctx) : Request :=
  { r with ctx := some ctx }

/-- An `*http.Response` as delivered by the transport: status code,
headers and body, returned to the caller uninterpreted. -/
structure Response where
  statusCode : Nat
  headers : List (String × String)
  body : String
deriving Repr, DecidableEq

/-- `http.NewRequest(http.MethodGet, url, nil)`: builds a request, failing
exactly when the URL is malformed.  Which strings parse as URLs is the
standard library's concern, abstracted as the predicate `validURL`. -/
def newRequest (validURL : String → Bool) (method url : String) :
    Except GoError Request :=
  if validURL url then
    .ok { method := method, url := url, basicAuth := none, ctx := none }
  else
    .error (.requestBuild url)

/-- The behaviour of `RoundTrip` on the configured transport: the external
network, mapping the transport configuration and the outgoing request to a
response or a network-level failure message.  `http.Transport` produces
its own error values, never this package's sentinels, so its error type
is a bare message embedded via `GoError.transportFailure`. -/
abbrev NetBehavior := Option HttpTransport → Request → Except String Response

/-- What one call to `request` (or `Get`/`GetV1`) produces: the receiver
after the call (Go methods take `*Client`), the lines printed to standard
output, and the `(res, err)` pair as an `Except`. -/
structure CallResult where
  client : Client
  trace : List String
  result : Except GoError Response
deriving Repr

/-- The internal `request` routine: debug trace, `http.NewRequest`,
`SetBasicAuth(login, token)`, then `transport.RoundTrip(req.WithContext(ctx))`,
returning the transport's outcome as-is. -/
def Client.request (net : NetBehavior) (validURL : String → Bool)
    (c : Client) (ctx : Ctx) (endpoint : String) : CallResult :=
  let trace := if c.debug then ["Requesting: " ++ endpoint ++ "\n"] else []
  match newRequest validURL "GET" endpoint with
  | .error e => { client := c, trace := trace, result := .error e }
  | .ok req =>
    let req := req.setBasicAuth c.login c.token
    match net c.transport (req.withCtx ctx) with
    | .ok res => { client := c, trace := trace, result := .ok res }
    | .error msg =>
      { client := c, trace := trace, result := .error (.transportFailure msg) }

/-- `Get` sends get request to v3 version of the jira api. -/
def Client.Get (net : NetBehavior) (validURL : String → Bool)
    (c : Client) (ctx : Ctx) (path : String) : CallResult :=
  c.request net validURL ctx (c.server ++ baseURLv3 ++ path)

/-- `GetV1` sends get request to v1 version of the jira api. -/
def Client.GetV1 (net : NetBehavior) (validURL : String → Bool)
    (c : Client) (ctx : Ctx) (path : String) : CallResult :=
  c.request net validURL ctx (c.server ++ baseURLv1 ++ path)

/-- Result of `jiraConfig.Generate()` in the `initialize` handler:
success, the sentinel `ErrSkip`, or any other error. -/
inductive GenResult where
  | ok
  | errSkip
  | err (msg : String)
deriving Repr, DecidableEq

/-- Observable outcome of the `initialize` command handler: the lines it
prints and `some n` when it calls `os.Exit(n)` (`none` = normal return). -/
structure ProcOutcome where
  output : List String
  exitCode : Option Nat
deriving Repr, DecidableEq

/-- The `initialize` command handler (named `initRun` here because the Go
name is a reserved word in Lean).  `Generate` and `viper.ConfigFileUsed()`
are external collaborators, passed as the generation outcome and the
config file path. -/
def initRun (genResult : GenResult) (configFileUsed : String) :
    ProcOutcome :=
  match genResult with
  | .errSkip =>
    { output := ["\n\x1b[0;32m✓\x1b[0m Skipping config generation. Current config: "
                   ++ configFileUsed ++ "\n"]
      exitCode := some 1 }
  | .err _ =>
    { output := ["\n\x1b[0;31m✗\x1b[0m Unable to generate configuration: "
                   ++ configFileUsed ++ "\n"]
      exitCode := some 1 }
  | .ok =>
    { output := ["\n\x1b[0;32m✓\x1b[0m Configuration generated: "
                   ++ configFileUsed ++ "\n"]
      exitCode := none }

/-- The concrete scenario configuration from the specification:
server `https://example.atlassian.net/`, login `user@example.com`,
token `tok123`. -/
def exampleConfig : Config :=
  { Server := "https://example.atlassian.net/"
    Login := "user@example.com"
    APIToken := "tok123"
    Debug := false }

/-- A configuration whose server ends in two trailing slashes. -/
def doubleSlashConfig : Config :=
  { Server := "https://x//"
    Login := "u"
    APIToken := "t"
    Debug := false }

/-- Same as `exampleConfig` but with the debug flag enabled. -/
def debugConfig : Config :=
  { Server := "https://example.atlassian.net/"
    Login := "user@example.com"
    APIToken := "tok123"
    Debug := true }

/-- Embeds the transport's outcome into the package error vocabulary:
a response passes through unchanged, a network failure stays a network
failure.  This is the value `request` returns after `RoundTrip`. -/
def liftTransport : Except String Response → Except GoError Response
  | .ok r => .ok r
  | .error m => .error (.transportFailure m)

/-- The request that `request` hands to the transport for a given
endpoint: a GET for that URL with the client's Basic-auth credentials and
the caller's context bound. -/
def issuedRequest (c : Client) (ctx : Ctx) (endpoint : String) : Request :=
  { method := "GET"
    url := endpoint
    basicAuth := some (c.login, c.token)
    ctx := some ctx }

/-- A network behaviour that always delivers `resp0` (a non-2xx response,
as the client must pass those through unchanged). -/
def resp0 : Response := { statusCode := 404, headers := [], body := "" }

/-- The always-delivering network used to instantiate the theorems. -/
def net0 : NetBehavior := fun _ _ => .ok resp0

/-- A URL-validity predicate accepting every string. -/
def valid0 : String → Bool := fun _ => true

section Lemmas

/-- `request` returns exactly the transport's outcome when the URL parses,
and the request-construction error otherwise. -/
theorem request_result_eq (net : NetBehavior) (validURL : String → Bool)
    (c : Client) (ctx : Ctx) (ep : String) :
    (c.request net validURL ctx ep).result =
      if validURL ep then liftTransport (net c.transport (issuedRequest c ctx ep))
      else .error (.requestBuild ep) := by
  unfold Client.request newRequest
  by_cases hv : validURL ep
  · cases hnet : net c.transport (issuedRequest c ctx ep) with
    | ok r =>
      simp [hv, issuedRequest, Request.setBasicAuth, Request.withCtx,
        liftTransport, hnet] at hnet ⊢
    | error m =>
      simp [hv, issuedRequest, Request.setBasicAuth, Request.withCtx,
        liftTransport, hnet] at hnet ⊢
  · simp [hv]

/-- The debug trace of `request` depends only on the debug flag and the
endpoint. -/
theorem request_trace_eq (net : NetBehavior) (validURL : String → Bool)
    (c : Client) (ctx : Ctx) (ep : String) :
    (c.request net validURL ctx ep).trace =
      if c.debug then ["Requesting: " ++ ep ++ "\n"] else [] := by
  unfold Client.request newRequest
  by_cases hv : validURL ep
  · cases hnet : net c.transport
        (({ method := "GET", url := ep, basicAuth := none,
            ctx := none : Request }.setBasicAuth c.login c.token).withCtx ctx) <;>
      simp [hv, hnet]
  · simp [hv]

/-- `request` returns its receiver unchanged. -/
theorem request_client_eq (net : NetBehavior) (validURL : String → Bool)
    (c : Client) (ctx : Ctx) (ep : String) :
    (c.request net validURL ctx ep).client = c := by
  unfold Client.request newRequest
  by_cases hv : validURL ep
  · cases hnet : net c.transport
        (({ method := "GET", url := ep, basicAuth := none,
            ctx := none : Request }.setBasicAuth c.login c.token).withCtx ctx) <;>
      simp [hv, hnet]
  · simp [hv]

/-- A fold of `Get` calls over any call list leaves the client fixed. -/
theorem foldl_get_client (net : NetBehavior) (validURL : String → Bool) :
    ∀ (calls : List (Ctx × String)) (c : Client),
      calls.foldl (fun cl pr => (cl.Get net validURL pr.1 pr.2).client) c = c := by
  intro calls
  induction calls with
  | nil => intro c; rfl
  | cons hd tl ih =>
    intro c
    have h1 : (c.Get net validURL hd.1 hd.2).client = c :=
      request_client_eq net validURL c hd.1 (c.server ++ baseURLv3 ++ hd.2)
    simp [List.foldl_cons, h1, ih]

/-- `WithTimeout` options never touch the `server` field. -/
theorem foldl_withTimeout_server (ds : List Duration) :
    ∀ (cl : Client),
      ((ds.map WithTimeout).foldl (fun c opt => opt c) cl).server = cl.server := by
  induction ds with
  | nil => intro cl; rfl
  | cons hd tl ih => intro cl; simp [WithTimeout, ih]

/-- The error of a failed `request` call is always a request-construction
failure or a network failure, never a package sentinel. -/
theorem request_error_shape (net : NetBehavior) (validURL : String → Bool)
    (c : Client) (ctx : Ctx) (ep : String) (e : GoError) :
    (c.request net validURL ctx ep).result = .error e →
      (∃ u, e = GoError.requestBuild u) ∨ (∃ m, e = GoError.transportFailure m) := by
  rw [request_result_eq]
  by_cases hv : validURL ep
  · rw [if_pos hv]
    cases hnet : net c.transport (issuedRequest c ctx ep) with
    | ok r => simp [liftTransport]
    | error m =>
      intro h
      simp [liftTransport] at h
      exact Or.inr ⟨m, h.symm⟩
  · rw [if_neg hv]
    intro h
    simp at h
    exact Or.inl ⟨ep, h.symm⟩

end Lemmas

section Claims

/-- C1 (counterexample): the server string `"https://x//"` ends in
trailing slashes, yet the constructed client's `server` field still ends
in a slash — `TrimSuffix` removes only one copy of the suffix, so the
original claim is false for servers ending in two or more slashes. -/
theorem C1_counterexample :
    hasSuffix doubleSlashConfig.Server "/" = true
    ∧ hasSuffix (NewClient doubleSlashConfig []).server "/" = true
    ∧ (NewClient doubleSlashConfig []).server = "https://x/" := by
  decide

/-- C1 (amended): for every server string ending in a trailing slash,
`NewClient` (under any `WithTimeout` options) removes exactly one
trailing slash — the constructed `server` field is the input without its
final character.  The field therefore has zero trailing slashes exactly
when the input ended in a single slash. -/
theorem C1_trailing_slash_amended (c : Config) (ds : List Duration)
    (h : hasSuffix c.Server "/" = true) :
    (NewClient c (ds.map WithTimeout)).server
      = String.mk c.Server.data.dropLast := by
  have hs : (NewClient c (ds.map WithTimeout)).server = trimSuffix c.Server "/" := by
    unfold NewClient
    exact foldl_withTimeout_server ds _
  rw [hs]
  unfold trimSuffix
  have h1 : ("/" : String).data.length = 1 := rfl
  rw [if_pos h, h1, List.dropLast_eq_take]

/-- C1 (witness): the amended statement at the specification's concrete
server `https://example.atlassian.net/`. -/
theorem C1_amended_witness :
    hasSuffix exampleConfig.Server "/" = true
    ∧ (NewClient exampleConfig (List.map WithTimeout [])).server
        = String.mk exampleConfig.Server.data.dropLast
    ∧ String.mk exampleConfig.Server.data.dropLast
        = "https://example.atlassian.net" :=
  ⟨by decide, C1_trailing_slash_amended exampleConfig [] (by decide), by decide⟩

/-- C2 (code bug, evaluated): `WithTimeout d` sets the client's `timeout`
field to `d`, but the transport's dialer keeps timeout `0`: `NewClient`
builds the `http.Transport` from `client.timeout` *before* applying the
option functions, so the option never reaches the dialer and connection
attempts are not governed by `d`.  Omitting the option also leaves the
dial timeout `0` (the platform default), so the option is observationally
dead for dialing. -/
theorem C2_withTimeout_dial_bug (c : Config) (d : Duration) :
    (NewClient c [WithTimeout d]).timeout = d
    ∧ (NewClient c [WithTimeout d]).transport
        = some { proxyFromEnvironment := true, dialTimeout := 0 }
    ∧ (NewClient c []).transport
        = some { proxyFromEnvironment := true, dialTimeout := 0 } :=
  ⟨rfl, rfl, rfl⟩

/-- C3: `Get` hands the transport a request for exactly
`server ++ "/rest/api/3" ++ path` and `GetV1` for exactly
`server ++ "/rest/agile/1.0" ++ path`, where `server` is the client's
normalized server field, and returns the transport's outcome for that
request. -/
theorem C3_versioned_urls (net : NetBehavior) (validURL : String → Bool)
    (c : Client) (ctx : Ctx) (p : String) :
    (validURL (c.server ++ "/rest/api/3" ++ p) = true →
      (c.Get net validURL ctx p).result
        = liftTransport (net c.transport
            (issuedRequest c ctx (c.server ++ "/rest/api/3" ++ p))))
    ∧ (validURL (c.server ++ "/rest/agile/1.0" ++ p) = true →
      (c.GetV1 net validURL ctx p).result
        = liftTransport (net c.transport
            (issuedRequest c ctx (c.server ++ "/rest/agile/1.0" ++ p)))) := by
  constructor
  · intro hv
    have h := request_result_eq net validURL c ctx (c.server ++ "/rest/api/3" ++ p)
    rw [if_pos hv] at h
    exact h
  · intro hv
    have h := request_result_eq net validURL c ctx (c.server ++ "/rest/agile/1.0" ++ p)
    rw [if_pos hv] at h
    exact h

/-- C3 (witness): the specification's concrete scenarios — with server
`https://example.atlassian.net/`, `Get` on `/issue/ABC-1` targets
`https://example.atlassian.net/rest/api/3/issue/ABC-1` and `GetV1` on
`/board/7/sprint` targets
`https://example.atlassian.net/rest/agile/1.0/board/7/sprint`. -/
theorem C3_witness :
    ((NewClient exampleConfig []).server ++ "/rest/api/3" ++ "/issue/ABC-1"
        = "https://example.atlassian.net/rest/api/3/issue/ABC-1")
    ∧ ((NewClient exampleConfig []).server ++ "/rest/agile/1.0" ++ "/board/7/sprint"
        = "https://example.atlassian.net/rest/agile/1.0/board/7/sprint")
    ∧ ((NewClient exampleConfig []).Get net0 valid0 0 "/issue/ABC-1").result
        = liftTransport (net0 (NewClient exampleConfig []).transport
            (issuedRequest (NewClient exampleConfig []) 0
              ((NewClient exampleConfig []).server ++ "/rest/api/3" ++ "/issue/ABC-1")))
    ∧ ((NewClient exampleConfig []).GetV1 net0 valid0 0 "/board/7/sprint").result
        = liftTransport (net0 (NewClient exampleConfig []).transport
            (issuedRequest (NewClient exampleConfig []) 0
              ((NewClient exampleConfig []).server ++ "/rest/agile/1.0" ++ "/board/7/sprint"))) := by
  refine ⟨by decide, by decide, ?_, ?_⟩
  · exact (C3_versioned_urls net0 valid0 (NewClient exampleConfig []) 0 "/issue/ABC-1").1 rfl
  · exact (C3_versioned_urls net0 valid0 (NewClient exampleConfig []) 0 "/board/7/sprint").2 rfl

/-- C4: every request `Get` or `GetV1` hands to the transport carries
Basic-auth credentials equal to the client's configured login and token. -/
theorem C4_basic_auth (net : NetBehavior) (validURL : String → Bool)
    (c : Client) (ctx : Ctx) (p : String) :
    (validURL (c.server ++ baseURLv3 ++ p) = true →
      ∃ req : Request, req.basicAuth = some (c.login, c.token)
        ∧ (c.Get net validURL ctx p).result
            = liftTransport (net c.transport req))
    ∧ (validURL (c.server ++ baseURLv1 ++ p) = true →
      ∃ req : Request, req.basicAuth = some (c.login, c.token)
        ∧ (c.GetV1 net validURL ctx p).result
            = liftTransport (net c.transport req)) := by
  constructor
  · intro hv
    refine ⟨issuedRequest c ctx (c.server ++ baseURLv3 ++ p), rfl, ?_⟩
    have h := request_result_eq net validURL c ctx (c.server ++ baseURLv3 ++ p)
    rw [if_pos hv] at h
    exact h
  · intro hv
    refine ⟨issuedRequest c ctx (c.server ++ baseURLv1 ++ p), rfl, ?_⟩
    have h := request_result_eq net validURL c ctx (c.server ++ baseURLv1 ++ p)
    rw [if_pos hv] at h
    exact h

/-- C4 (witness): in the specification's concrete scenario the request
handed to the transport carries Basic auth `user@example.com : tok123`. -/
theorem C4_witness :
    ∃ req : Request,
      req.basicAuth = some ("user@example.com", "tok123")
      ∧ ((NewClient exampleConfig []).Get net0 valid0 0 "/issue/ABC-1").result
          = liftTransport (net0 (NewClient exampleConfig []).transport req) :=
  (C4_basic_auth net0 valid0 (NewClient exampleConfig []) 0 "/issue/ABC-1").1 rfl

/-- C5: `Get` and `GetV1` never return the sentinel errors `ErrNoResult`,
`ErrEmptyResponse` or `ErrUnexpectedStatusCode`; every response delivered
by the transport — regardless of status code — is returned to the caller
as a successful outcome. -/
theorem C5_no_sentinels (net : NetBehavior) (validURL : String → Bool)
    (c : Client) (ctx : Ctx) (p : String) (e : GoError) (resp : Response) :
    ((c.Get net validURL ctx p).result = .error e
        ∨ (c.GetV1 net validURL ctx p).result = .error e →
      e ≠ ErrNoResult ∧ e ≠ ErrEmptyResponse ∧ e ≠ ErrUnexpectedStatusCode)
    ∧ (validURL (c.server ++ baseURLv3 ++ p) = true →
        net c.transport (issuedRequest c ctx (c.server ++ baseURLv3 ++ p)) = .ok resp →
      (c.Get net validURL ctx p).result = .ok resp)
    ∧ (validURL (c.server ++ baseURLv1 ++ p) = true →
        net c.transport (issuedRequest c ctx (c.server ++ baseURLv1 ++ p)) = .ok resp →
      (c.GetV1 net validURL ctx p).result = .ok resp) := by
  refine ⟨?_, ?_, ?_⟩
  · intro hor
    have hshape : (∃ u, e = GoError.requestBuild u) ∨ (∃ m, e = GoError.transportFailure m) := by
      rcases hor with h | h
      · exact request_error_shape net validURL c ctx (c.server ++ baseURLv3 ++ p) e h
      · exact request_error_shape net validURL c ctx (c.server ++ baseURLv1 ++ p) e h
    rcases hshape with ⟨u, rfl⟩ | ⟨m, rfl⟩ <;>
      exact ⟨by simp [ErrNoResult], by simp [ErrEmptyResponse],
        by simp [ErrUnexpectedStatusCode]⟩
  · intro hv hnet
    have h := request_result_eq net validURL c ctx (c.server ++ baseURLv3 ++ p)
    rw [if_pos hv, hnet] at h
    exact h
  · intro hv hnet
    have h := request_result_eq net validURL c ctx (c.server ++ baseURLv1 ++ p)
    rw [if_pos hv, hnet] at h
    exact h

/-- C5 (witness): with a network that delivers a 404 response, `Get`
returns that response as a success. -/
theorem C5_witness :
    ((NewClient exampleConfig []).Get net0 valid0 0 "/issue/ABC-1").result
      = .ok resp0
    ∧ resp0.statusCode = 404 :=
  ⟨(C5_no_sentinels net0 valid0 (NewClient exampleConfig []) 0 "/issue/ABC-1"
      GoError.errNoResult resp0).2.1 rfl rfl, rfl⟩

/-- C6: construction is infallible — for every `Config` (malformed server
strings and empty credentials included) and every option list, `NewClient`
yields a client. -/
theorem C6_infallible_construction (c : Config) (opts : List ClientFunc) :
    ∃ cl : Client, NewClient c opts = cl :=
  ⟨NewClient c opts, rfl⟩

/-- C7: option functions are applied strictly in the order given — the
last option acts last on the accumulated client — and a later
`WithTimeout` overrides an earlier one. -/
theorem C7_option_order (c : Config) (opts : List ClientFunc) (o : ClientFunc)
    (d1 d2 : Duration) :
    NewClient c (opts ++ [o]) = o (NewClient c opts)
    ∧ (NewClient c [WithTimeout d1, WithTimeout d2]).timeout = d2 := by
  constructor
  · simp [NewClient, List.foldl_append]
  · rfl

/-- C8: with the debug flag set, every `Get`/`GetV1` call emits exactly
one trace line naming the fully resolved request URL; with the flag
clear, no trace line is emitted. -/
theorem C8_debug_trace (net : NetBehavior) (validURL : String → Bool)
    (c : Client) (ctx : Ctx) (p : String) :
    (c.debug = true →
      (c.Get net validURL ctx p).trace
          = ["Requesting: " ++ (c.server ++ baseURLv3 ++ p) ++ "\n"]
      ∧ (c.GetV1 net validURL ctx p).trace
          = ["Requesting: " ++ (c.server ++ baseURLv1 ++ p) ++ "\n"])
    ∧ (c.debug = false →
      (c.Get net validURL ctx p).trace = []
      ∧ (c.GetV1 net validURL ctx p).trace = []) := by
  constructor
  · intro hd
    constructor
    · have h := request_trace_eq net validURL c ctx (c.server ++ baseURLv3 ++ p)
      rw [hd] at h
      simpa using h
    · have h := request_trace_eq net validURL c ctx (c.server ++ baseURLv1 ++ p)
      rw [hd] at h
      simpa using h
  · intro hd
    constructor
    · have h := request_trace_eq net validURL c ctx (c.server ++ baseURLv3 ++ p)
      rw [hd] at h
      simpa using h
    · have h := request_trace_eq net validURL c ctx (c.server ++ baseURLv1 ++ p)
      rw [hd] at h
      simpa using h

/-- C8 (witness): a debug-enabled client traces the resolved URL; the
same client without debug traces nothing. -/
theorem C8_witness :
    ((NewClient debugConfig []).debug = true)
    ∧ ((NewClient debugConfig []).Get net0 valid0 0 "/issue/ABC-1").trace
        = ["Requesting: "
            ++ ((NewClient debugConfig []).server ++ baseURLv3 ++ "/issue/ABC-1")
            ++ "\n"]
    ∧ ((NewClient exampleConfig []).debug = false)
    ∧ ((NewClient exampleConfig []).Get net0 valid0 0 "/issue/ABC-1").trace = [] := by
  refine ⟨rfl, ?_, rfl, ?_⟩
  · exact ((C8_debug_trace net0 valid0 (NewClient debugConfig []) 0 "/issue/ABC-1").1 rfl).1
  · exact ((C8_debug_trace net0 valid0 (NewClient exampleConfig []) 0 "/issue/ABC-1").2 rfl).1

/-- C9: no operation mutates the client — `request`, `Get` and `GetV1`
return their receiver unchanged, and any sequence of `Get` calls leaves
the client exactly as constructed. -/
theorem C9_client_immutable (net : NetBehavior) (validURL : String → Bool)
    (c : Client) (ctx : Ctx) (p ep : String) (calls : List (Ctx × String)) :
    (c.request net validURL ctx ep).client = c
    ∧ (c.Get net validURL ctx p).client = c
    ∧ (c.GetV1 net validURL ctx p).client = c
    ∧ calls.foldl (fun cl pr => (cl.Get net validURL pr.1 pr.2).client) c = c :=
  ⟨request_client_eq net validURL c ctx ep,
   request_client_eq net validURL c ctx (c.server ++ baseURLv3 ++ p),
   request_client_eq net validURL c ctx (c.server ++ baseURLv1 ++ p),
   foldl_get_client net validURL calls c⟩

/-- C10: when `Generate` signals the user's skip (`ErrSkip`), the init
command exits with status 1 — the same nonzero code as the genuine
failure branch, and unlike the success branch which returns normally —
while the skip message carries the success styling (the green check
prefix shared with the success message, not the red cross of the failure
message). -/
theorem C10_skip_exits_nonzero (cf msg : String) :
    (initRun .errSkip cf).exitCode = some 1
    ∧ (initRun (.err msg) cf).exitCode = some 1
    ∧ (initRun .ok cf).exitCode = none
    ∧ ((initRun .errSkip "config.yml").output.map (fun l => l.data.take 14)
        = (initRun .ok "config.yml").output.map (fun l => l.data.take 14))
    ∧ ((initRun .errSkip "config.yml").output.map (fun l => l.data.take 14)
        ≠ (initRun (.err "boom") "config.yml").output.map (fun l => l.data.take 14)) :=
  ⟨rfl, rfl, rfl, by decide, by decide⟩

end Claims
